import Mathlib

/-!
Milestone XT720 kernel modules: partition tables and load-time hooks

A shallow embedding of `mtdhack/mtd-hack.c`, `mtdhack/mtd-hack-rw.c` and
`sensorfix/sensorfix.c`, followed by the properties of the static partition
tables and of the three module-load routines.
-/

/-! ## Partition descriptors (both `mtd-hack.c` and `mtd-hack-rw.c`) -/

/-- Writable bit of `mtd_info.flags`; the value is the one of the host kernel
header `mtd/mtd-abi.h`. -/
def MTD_WRITEABLE : Nat := 0x400

/-- Mask removing the writable bit: `#define MTD_RO (MTD_WRITEABLE)`. -/
def MTD_RO : Nat := MTD_WRITEABLE

/-- Mask removing nothing: `#define MTD_RW 0`. -/
def MTD_RW : Nat := 0

/-- The four fields of `struct mtd_partition` that the tables initialise. -/
structure mtd_partition where
  name : String
  size : Nat
  offset : Nat
  mask_flags : Nat
  deriving DecidableEq, Repr

/-- The designated initialiser macro
`mtd_hack_part(psize, pstart, pname, pflags)`: both numbers are given in KiB
and multiplied by 1024. -/
def mtd_hack_part (psize pstart : Nat) (pname : String) (pflags : Nat) : mtd_partition :=
  { name := pname, size := psize * 1024, offset := pstart * 1024, mask_flags := pflags }

namespace mtd_hack

/-- The array `part[]` of `mtd-hack.c` (the commented-out rows are not part
of the array). -/
def part : List mtd_partition :=
  [ mtd_hack_part    128      0 "mbmloader"  MTD_RO,
    mtd_hack_part    640    128 "mbm"        MTD_RO,
    mtd_hack_part    640    768 "mbmbackup"  MTD_RO,
    mtd_hack_part    384   1408 "bploader"   MTD_RO,
    mtd_hack_part    384   1792 "cdt"        MTD_RO,
    mtd_hack_part    384   3712 "lbl"        MTD_RO,
    mtd_hack_part    384   4096 "lbl_backup" MTD_RO,
    mtd_hack_part   1536   4864 "sp"         MTD_RO,
    mtd_hack_part    384   6400 "devtree"    MTD_RO,
    mtd_hack_part   3840  11392 "bpsw"       MTD_RO,
    mtd_hack_part    384  28800 "unused0"    MTD_RO,
    mtd_hack_part    384 521344 "unused2"    MTD_RO,
    mtd_hack_part    512 523776 "rsv"        MTD_RO,
    mtd_hack_part 524288      0 "totality"   MTD_RO ]

end mtd_hack

namespace mtd_hack_rw

/-- The array `part[]` of `mtd-hack-rw.c`. -/
def part : List mtd_partition :=
  [ mtd_hack_part    384   1792 "cdt_rw"      MTD_RW,
    mtd_hack_part   3584   7808 "boot_rw"     MTD_RW,
    mtd_hack_part   1536   4864 "sp_rw"       MTD_RW,
    mtd_hack_part 204416  29184 "system_21"   MTD_RW,
    mtd_hack_part 108544 233984 "cache_21"    MTD_RW,
    mtd_hack_part 177280 342528 "userdata_21" MTD_RW,
    mtd_hack_part 173696  29184 "system_22"   MTD_RW,
    mtd_hack_part  51200 203264 "cache_22"    MTD_RW,
    mtd_hack_part 265344 254464 "userdata_22" MTD_RW ]

end mtd_hack_rw

/-! ## Predicates on partition tables -/

/-- The byte ranges `[offset, offset + size)` of two descriptors share no byte. -/
def RangesDisjoint (p q : mtd_partition) : Prop :=
  p.offset + p.size ≤ q.offset ∨ q.offset + q.size ≤ p.offset

instance (p q : mtd_partition) : Decidable (RangesDisjoint p q) := by
  unfold RangesDisjoint; infer_instance

/-- Every two descriptors at distinct positions of the array are disjoint. -/
def NoOverlap (l : List mtd_partition) : Prop :=
  ∀ i j : Fin l.length, i ≠ j → RangesDisjoint (l.get i) (l.get j)

instance (l : List mtd_partition) : Decidable (NoOverlap l) := by
  unfold NoOverlap; infer_instance

/-! ## The layout documented in the header comment of both partition modules -/

/-- A size written `Nk` in the `mtdparts=` line, in bytes. -/
def kib (n : Nat) : Nat := n * 1024

/-- A size written `Nm` in the `mtdparts=` line, in bytes. -/
def mib (n : Nat) : Nat := n * 1024 * 1024

/-- The left (2.1) column of the documented `mtdparts=omap2-nand.0:` line:
names with their sizes in bytes, in the order listed. -/
def mtdparts_21 : List (String × Nat) :=
  [ ("mbmloader", kib 128), ("mbm", kib 640), ("mbmbackup", kib 640),
    ("bploader", kib 384), ("cdt", kib 384), ("pds", kib 1536),
    ("lbl", kib 384), ("lbl_backup", kib 384), ("cid", kib 384),
    ("sp", kib 1536), ("devtree", kib 384), ("logo", kib 640),
    ("misc", kib 384), ("boot", kib 3584), ("bpsw", kib 3840),
    ("recovery", kib 4608), ("cdrom", kib 8960), ("unused0", kib 384),
    ("system", kib 204416), ("unused1", kib 384), ("cache", mib 106),
    ("userdata", kib 177280), ("cust", kib 1536), ("unused2", kib 384),
    ("kpanic", mib 2), ("rsv", kib 512) ]

/-- The right (2.2) column: the same line with the four rows that differ. -/
def mtdparts_22 : List (String × Nat) :=
  [ ("mbmloader", kib 128), ("mbm", kib 640), ("mbmbackup", kib 640),
    ("bploader", kib 384), ("cdt", kib 384), ("pds", kib 1536),
    ("lbl", kib 384), ("lbl_backup", kib 384), ("cid", kib 384),
    ("sp", kib 1536), ("devtree", kib 384), ("logo", kib 640),
    ("misc", kib 384), ("boot", kib 3584), ("bpsw", kib 3840),
    ("recovery", kib 4608), ("cdrom", kib 8960), ("unused0", kib 384),
    ("system", kib 173696), ("unused1", kib 384), ("cache", mib 50),
    ("userdata", kib 265344), ("cust", kib 1536), ("unused2", kib 384),
    ("kpanic", mib 2), ("rsv", kib 512) ]

/-- Reading a `mtdparts=` line as a contiguous layout: the entry called `nm`
starts where the sizes of all entries listed before it end (`start` is the
offset of the head of the list). Returns `(offset, size)`. -/
def documented_at (start : Nat) : List (String × Nat) → String → Option (Nat × Nat)
  | [], _ => none
  | (n, sz) :: rest, nm =>
    if n = nm then some (start, sz) else documented_at (start + sz) rest nm

/-- Offset and size documented for `nm` in a layout that starts at offset 0. -/
def documented (layout : List (String × Nat)) (nm : String) : Option (Nat × Nat) :=
  documented_at 0 layout nm

/-- Total size of a documented layout. -/
def layout_total (layout : List (String × Nat)) : Nat :=
  (layout.map Prod.snd).sum

/-- Removes `suf` from the end of `s` when `s` ends with it. -/
def drop_suffix? (suf s : String) : Option String :=
  if suf.data.isSuffixOf s.data then
    some (String.mk (s.data.take (s.data.length - suf.data.length)))
  else none

/-- The documented name and column a descriptor of `mtd-hack-rw.c` refers to:
`_rw` and `_21` name the 2.1 column, `_22` the 2.2 column. -/
def rw_reference (nm : String) : Option (String × List (String × Nat)) :=
  match drop_suffix? "_rw" nm with
  | some b => some (b, mtdparts_21)
  | none =>
    match drop_suffix? "_21" nm with
    | some b => some (b, mtdparts_21)
    | none =>
      match drop_suffix? "_22" nm with
      | some b => some (b, mtdparts_22)
      | none => none

/-- The documented `(offset, size)` a descriptor of `mtd-hack-rw.c` refers to. -/
def rw_documented (nm : String) : Option (Nat × Nat) :=
  match rw_reference nm with
  | some (b, layout) => documented layout b
  | none => none

/-! ## The host kernel as seen by the partition modules -/

/-- How a module-load routine ends: it returns a code, or it reads through a
NULL (or error) pointer, which is a kernel oops and never returns. -/
inductive Outcome (σ : Type) where
  | returned (code : Int) (k : σ)
  | oops (k : σ)
  deriving DecidableEq, Repr

/-- An argument of a `printk` format. -/
inductive PrintkArg where
  | str (s : String)
  | num (n : Int)
  deriving DecidableEq, Repr

/-- The fields of `struct mtd_info` the modules read or write. -/
structure mtd_info where
  name : String
  type : Nat
  flags : Nat
  size : Nat
  deriving DecidableEq, Repr

/-- A device bound to a driver: `init_name` and what `dev_get_drvdata`
returns (`none` is the NULL pointer). -/
structure device where
  init_name : String
  driver_data : Option mtd_info
  deriving DecidableEq, Repr

/-- A registered driver with the list of devices bound to it. -/
structure device_driver where
  name : String
  mod_name : String
  devices : List device
  deriving DecidableEq, Repr

/-- What a module does to the kernel, in program order. -/
inductive Event where
  | printk (fmt : String) (args : List PrintkArg)
  | store_flags (index : Nat) (value : Nat)
  | add_mtd_partitions (master : mtd_info) (parts : List mtd_partition) (nbparts : Nat)
  deriving DecidableEq, Repr

/-- Kernel state the partition modules touch: the table of registered MTD
devices, the drivers of the platform bus, and the trace of effects so far. -/
structure Kernel where
  mtd_table : List mtd_info
  platform_bus : List device_driver
  trace : List Event
  deriving DecidableEq, Repr

/-- Appends one effect to the trace. -/
def Kernel.emit (k : Kernel) (e : Event) : Kernel :=
  { k with trace := k.trace ++ [e] }

/-- Kernel `printk`. -/
def printk (fmt : String) (args : List PrintkArg) (k : Kernel) : Kernel :=
  k.emit (Event.printk fmt args)

/-- Scan of the MTD table for the first device called `nm`, with its index
counted from `i`. -/
def mtd_table_scan (nm : String) : Nat → List mtd_info → Option (Nat × mtd_info)
  | _, [] => none
  | i, m :: ms => if m.name = nm then some (i, m) else mtd_table_scan nm (i + 1) ms

/-- Kernel `get_mtd_device_nm`: the first registered MTD device of that name
(its table index stands for the pointer), `none` for the `ERR_PTR` result. -/
def get_mtd_device_nm (k : Kernel) (nm : String) : Option (Nat × mtd_info) :=
  mtd_table_scan nm 0 k.mtd_table

/-- Kernel `driver_find` on the platform bus: `none` is the NULL result. -/
def driver_find (k : Kernel) (nm : String) : Option device_driver :=
  k.platform_bus.find? (fun d => d.name = nm)

/-- Errno value of the host kernel. -/
def EINVAL : Int := 22

/-- The loop of the kernel's `driver_for_each_device`:
`while ((dev = next_device(&i)) && !error) error = fn(dev, data);`. -/
def for_each_loop (fn : device → Option Nat → Kernel → Int × Kernel) (data : Option Nat) :
    List device → Kernel → Int × Kernel
  | [], k => (0, k)
  | d :: ds, k =>
    match fn d data k with
    | (err, k1) => if err ≠ 0 then (err, k1) else for_each_loop fn data ds k1

/-- Kernel `driver_for_each_device(drv, NULL, data, fn)`: `-EINVAL` without a
driver, otherwise the callback on the bound devices in order, stopping at the
first non-zero return, which is the result. -/
def driver_for_each_device (drv : Option device_driver) (data : Option Nat)
    (fn : device → Option Nat → Kernel → Int × Kernel) (k : Kernel) : Int × Kernel :=
  match drv with
  | none => (-EINVAL, k)
  | some d => for_each_loop fn data d.devices k

/-- Kernel `add_mtd_partitions(master, parts, nbparts)`; its result is ignored
by both callers. -/
def add_mtd_partitions (master : mtd_info) (parts : List mtd_partition) (nbparts : Nat)
    (k : Kernel) : Kernel :=
  k.emit (Event.add_mtd_partitions master parts nbparts)

/-- The registrations of a trace, in order. -/
def registrations : List Event → List (mtd_info × List mtd_partition × Nat)
  | [] => []
  | Event.add_mtd_partitions m ps n :: es => (m, ps, n) :: registrations es
  | _ :: es => registrations es

/-- The state an outcome ends in. -/
def Outcome.state {σ : Type} : Outcome σ → σ
  | Outcome.returned _ k => k
  | Outcome.oops k => k

namespace mtd_hack

/-- The routine `mark_boot_writeable` of `mtd-hack.c`. -/
def mark_boot_writeable (k : Kernel) : Int × Kernel :=
  match get_mtd_device_nm k "boot" with
  | none => (-1, k)
  | some (i, mtd) =>
    let k1 := printk "mtd-hack: original 'boot' partition flags: %d\n" [PrintkArg.num mtd.flags] k
    let mtd1 := { mtd with flags := mtd.flags ||| MTD_WRITEABLE }
    let k2 := { k1 with mtd_table := k1.mtd_table.set i mtd1 }.emit (Event.store_flags i mtd1.flags)
    let k3 := printk "mtd-hack: modified 'boot' partition flags: %d\n" [PrintkArg.num mtd1.flags] k2
    (0, k3)

/-- The callback `create_missing_flash_parts` of `mtd-hack.c`. -/
def create_missing_flash_parts (dev : device) (_data : Option Nat) (k : Kernel) : Int × Kernel :=
  let k1 := printk "mtd-hack: device %s\n" [PrintkArg.str dev.init_name] k
  match dev.driver_data with
  | none => (-1, k1)
  | some mtd =>
    let k2 := printk "mtd-hack: mtd name %s, type %d, size %llu\n"
      [PrintkArg.str mtd.name, PrintkArg.num mtd.type, PrintkArg.num mtd.size] k1
    let k3 := add_mtd_partitions mtd part part.length k2
    let k4 := printk "mtd-hack: mtd name %s, type %d, size %llu\n"
      [PrintkArg.str mtd.name, PrintkArg.num mtd.type, PrintkArg.num mtd.size] k3
    (0, k4)

/-- The module-load routine `mtd_init` of `mtd-hack.c`. The result of
`mark_boot_writeable` and `err` are discarded, as in the source; the first
`printk` reads `devdrv->name` without a NULL test. -/
def mtd_init (k : Kernel) : Outcome Kernel :=
  let k0 := (mark_boot_writeable k).2
  match driver_find k0 "omap2-nand" with
  | none => Outcome.oops k0
  | some devdrv =>
    let k1 := printk "mtd-hack: found driver %s modname %s\n"
      [PrintkArg.str devdrv.name, PrintkArg.str devdrv.mod_name] k0
    let r := driver_for_each_device (some devdrv) none create_missing_flash_parts k1
    let k2 := printk "mtd hack loaded" [] r.2
    Outcome.returned 0 k2

end mtd_hack

namespace mtd_hack_rw

/-- The callback `create_missing_flash_parts` of `mtd-hack-rw.c`. -/
def create_missing_flash_parts (dev : device) (_data : Option Nat) (k : Kernel) : Int × Kernel :=
  let k1 := printk "mtd-hack-rw: device %s\n" [PrintkArg.str dev.init_name] k
  match dev.driver_data with
  | none => (-1, k1)
  | some mtd =>
    let k2 := printk "mtd-hack-rw: mtd name %s, type %d, size %llu\n"
      [PrintkArg.str mtd.name, PrintkArg.num mtd.type, PrintkArg.num mtd.size] k1
    let k3 := add_mtd_partitions mtd part part.length k2
    let k4 := printk "mtd-hack-rw: mtd name %s, type %d, size %llu\n"
      [PrintkArg.str mtd.name, PrintkArg.num mtd.type, PrintkArg.num mtd.size] k3
    (0, k4)

/-- The module-load routine `mtd_init` of `mtd-hack-rw.c`. -/
def mtd_init (k : Kernel) : Outcome Kernel :=
  match driver_find k "omap2-nand" with
  | none => Outcome.oops k
  | some devdrv =>
    let k1 := printk "mtd-hack-rw: found driver %s modname %s\n"
      [PrintkArg.str devdrv.name, PrintkArg.str devdrv.mod_name] k
    let r := driver_for_each_device (some devdrv) none create_missing_flash_parts k1
    let k2 := printk "mtd hack loaded" [] r.2
    Outcome.returned 0 k2

end mtd_hack_rw

/-! ## The sensor module `sensorfix.c` -/

/-- Errno value of the host kernel. -/
def EBUSY : Int := 16

/-- The six fields of `struct kxtf9_platform_data` (host header
`linux/kxtf9.h`) that the module writes. -/
structure kxtf9_platform_data where
  axis_map_x : Nat
  axis_map_y : Nat
  axis_map_z : Nat
  negate_x : Nat
  negate_y : Nat
  negate_z : Nat
  deriving DecidableEq, Repr

/-- The module's own declaration `struct kxtf9_data`: `client` is an address,
`pdata` is `none` for a NULL pointer. -/
structure kxtf9_data where
  client : Nat
  pdata : Option kxtf9_platform_data
  deriving DecidableEq, Repr

/-- What `filp_open` hands back: NULL, an `ERR_PTR`, or an open file. -/
inductive filp_result where
  | null
  | err_ptr (errno : Int)
  | file
  deriving DecidableEq, Repr

/-- Kernel state the sensor module touches: the result `filp_open` gives for
`/dev/kxtf9`, the driver instance `file->private_data` points to, the number of
file handles open, and the kernel log. -/
structure SensorKernel where
  dev_kxtf9 : filp_result
  private_data : Option kxtf9_data
  open_files : Nat
  log : List (String × List PrintkArg)
  deriving DecidableEq, Repr

/-- Kernel `printk` on the sensor module's state. -/
def SensorKernel.printk (k : SensorKernel) (fmt : String) (args : List PrintkArg) : SensorKernel :=
  { k with log := k.log ++ [(fmt, args)] }

/-- Kernel `filp_close`: one handle fewer. -/
def filp_close (k : SensorKernel) : SensorKernel :=
  { k with open_files := k.open_files - 1 }

/-- The module-load routine `sensorfix_init`. -/
def sensorfix_init (k : SensorKernel) : Outcome SensorKernel :=
  let exit_code : Int := -EBUSY
  match k.dev_kxtf9 with
  | filp_result.null =>
    Outcome.returned exit_code (k.printk "sensorfix: failed to open /dev/kxtf9\n" [])
  | filp_result.err_ptr _ => Outcome.oops k
  | filp_result.file =>
    let k1 := { k with open_files := k.open_files + 1 }
    match k1.private_data with
    | none =>
      let k2 := k1.printk "sensorfix: failed to fetch kxtf9_platform_data\n" []
      Outcome.returned exit_code (filp_close k2)
    | some tf9 =>
      match tf9.pdata with
      | none => Outcome.oops k1
      | some pdata =>
        let p1 := { pdata with axis_map_x := 0 }
        let p2 := { p1 with axis_map_y := 1 }
        let p3 := { p2 with axis_map_z := 2 }
        let p4 := { p3 with negate_x := 0 }
        let p5 := { p4 with negate_y := 1 }
        let p6 := { p5 with negate_z := 1 }
        let k2 := { k1 with private_data := some { tf9 with pdata := some p6 } }
        let k3 := k2.printk
          "sensorfix: kxtf9 negate_x/y/z = %d/%d/%d, axis_map_x = %d/%d/%d\n"
          [PrintkArg.num p6.negate_x, PrintkArg.num p6.negate_y, PrintkArg.num p6.negate_z,
           PrintkArg.num p6.axis_map_x, PrintkArg.num p6.axis_map_y, PrintkArg.num p6.axis_map_z]
        Outcome.returned 0 (filp_close k3)

/-- The configuration record the driver instance holds, when there is one. -/
def SensorKernel.config (k : SensorKernel) : Option kxtf9_platform_data :=
  match k.private_data with
  | some tf9 => tf9.pdata
  | none => none

/-- The axis maps are pairwise distinct and each is 0, 1 or 2. -/
def IsAxisPermutation (p : kxtf9_platform_data) : Prop :=
  p.axis_map_x ≠ p.axis_map_y ∧ p.axis_map_x ≠ p.axis_map_z ∧ p.axis_map_y ≠ p.axis_map_z ∧
  p.axis_map_x ≤ 2 ∧ p.axis_map_y ≤ 2 ∧ p.axis_map_z ≤ 2

instance (p : kxtf9_platform_data) : Decidable (IsAxisPermutation p) := by
  unfold IsAxisPermutation; infer_instance

/-! ## Reference predicates for the table properties -/

/-- The size of the flash device: the total of the documented layout. -/
def flash_device_size : Nat := layout_total mtdparts_21

/-- Modelled from the spec: the flash erase-block size is declared nowhere in
the sources; it is taken as 128 KiB, the granularity of the documented layout
and the size of its smallest entry, `mbmloader`. -/
def erase_block_size : Nat := kib 128

/-- The descriptor belongs to the 2.1 alternative of `mtd-hack-rw.c`. -/
def is_layout_21 (p : mtd_partition) : Bool := (drop_suffix? "_21" p.name).isSome

/-- The descriptor belongs to the 2.2 alternative of `mtd-hack-rw.c`. -/
def is_layout_22 (p : mtd_partition) : Bool := (drop_suffix? "_22" p.name).isSome

/-- One descriptor is of the 2.1 alternative and the other of the 2.2 one. -/
def AlternativeLayouts (p q : mtd_partition) : Prop :=
  (is_layout_21 p = true ∧ is_layout_22 q = true) ∨ (is_layout_22 p = true ∧ is_layout_21 q = true)

instance (p q : mtd_partition) : Decidable (AlternativeLayouts p q) := by
  unfold AlternativeLayouts; infer_instance

/-! ## Reference definitions and concrete kernels used by the statements -/

/-- The flash handles of all devices of the list that have one. -/
def flash_handles (ds : List device) : List mtd_info :=
  ds.filterMap (fun d => d.driver_data)

/-- The flash handles of the devices that come before the first device
without one. -/
def handles_until_missing : List device → List mtd_info
  | [] => []
  | d :: ds =>
    match d.driver_data with
    | none => []
    | some m => m :: handles_until_missing ds

/-- C7 as the specification words it: the routine `init`, run from `k` with the
devices `ds` bound to the driver, adds exactly one registration of the full
array `parts` for every device of `ds` that has a flash handle, and returns 0. -/
def RegistersOnEveryFlashDevice (init : Kernel → Outcome Kernel) (parts : List mtd_partition)
    (k : Kernel) (ds : List device) : Prop :=
  (∃ k1, init k = Outcome.returned 0 k1) ∧
  registrations (init k).state.trace =
    registrations k.trace ++ (flash_handles ds).map (fun m => (m, parts, parts.length))

/-- A kernel whose `omap2-nand` driver has a device without a flash handle
in front of a device with one. -/
def kernel_with_gap : Kernel :=
  { mtd_table := [],
    platform_bus :=
      [ { name := "omap2-nand", mod_name := "omap2",
          devices :=
            [ { init_name := "omap2-nand.0", driver_data := none },
              { init_name := "omap2-nand.1",
                driver_data := some { name := "omap2-nand", type := 4, flags := 1024,
                                      size := 536870912 } } ] } ],
    trace := [] }

/-- A kernel whose `omap2-nand` driver has a device with a flash handle, then
one without, then another one with a flash handle. -/
def kernel_three_devices : Kernel :=
  { mtd_table := [],
    platform_bus :=
      [ { name := "omap2-nand", mod_name := "omap2",
          devices :=
            [ { init_name := "omap2-nand.0",
                driver_data := some { name := "nand0", type := 4, flags := 1024,
                                      size := 536870912 } },
              { init_name := "omap2-nand.1", driver_data := none },
              { init_name := "omap2-nand.2",
                driver_data := some { name := "nand2", type := 4, flags := 1024,
                                      size := 536870912 } } ] } ],
    trace := [] }

/-- A kernel on which no `omap2-nand` driver is registered. -/
def kernel_without_driver : Kernel :=
  { mtd_table := [], platform_bus := [], trace := [] }

/-- A kernel whose MTD table holds a read-only `boot` device behind another
device, and whose `omap2-nand` driver has one device with a flash handle. -/
def kernel_with_boot : Kernel :=
  { mtd_table :=
      [ { name := "pds", type := 4, flags := 1024, size := 1572864 },
        { name := "boot", type := 4, flags := 2048, size := 3670016 } ],
    platform_bus :=
      [ { name := "omap2-nand", mod_name := "omap2",
          devices :=
            [ { init_name := "omap2-nand.0",
                driver_data := some { name := "omap2-nand", type := 4, flags := 1024,
                                      size := 536870912 } } ] } ],
    trace := [] }

/-- The record `sensorfix_init` leaves behind: the six constants it stores. -/
def fixed_config : kxtf9_platform_data :=
  { axis_map_x := 0, axis_map_y := 1, axis_map_z := 2, negate_x := 0, negate_y := 1, negate_z := 1 }

/-- A sensor kernel whose record is what the Motoroi device tree gives. -/
def sensor_motoroi : SensorKernel :=
  { dev_kxtf9 := filp_result.file,
    private_data := some
      { client := 1,
        pdata := some { axis_map_x := 1, axis_map_y := 0, axis_map_z := 2,
                        negate_x := 1, negate_y := 1, negate_z := 1 } },
    open_files := 0, log := [] }

/-- A sensor kernel whose axis maps are not a permutation. -/
def sensor_not_permutation : SensorKernel :=
  { dev_kxtf9 := filp_result.file,
    private_data := some
      { client := 1,
        pdata := some { axis_map_x := 1, axis_map_y := 1, axis_map_z := 7,
                        negate_x := 0, negate_y := 0, negate_z := 0 } },
    open_files := 0, log := [] }

/-- A sensor kernel whose driver instance has a NULL `pdata`. -/
def sensor_without_pdata : SensorKernel :=
  { dev_kxtf9 := filp_result.file,
    private_data := some { client := 1, pdata := none },
    open_files := 0, log := [] }

/-! ## Properties of the static tables -/

/-- The products of the initialiser macro fit a C `int`: no multiplication by
1024 in either table overflows. -/
theorem part_products_fit_int :
    (∀ p ∈ mtd_hack.part, p.size < 2147483648 ∧ p.offset < 2147483648) ∧
    (∀ p ∈ mtd_hack_rw.part, p.size < 2147483648 ∧ p.offset < 2147483648) := by
  decide

/-- C1, as stated, fails in both arrays: `part[]` of `mtd-hack.c` has two
descriptors at distinct positions that overlap (`mbmloader` and `totality`),
and so has `part[]` of `mtd-hack-rw.c` (`system_21` and `system_22`). -/
theorem part_overlap_counterexample :
    (¬ RangesDisjoint (mtd_hack.part.get ⟨0, by decide⟩) (mtd_hack.part.get ⟨13, by decide⟩) ∧
      ¬ NoOverlap mtd_hack.part) ∧
    (¬ RangesDisjoint (mtd_hack_rw.part.get ⟨3, by decide⟩) (mtd_hack_rw.part.get ⟨6, by decide⟩) ∧
      ¬ NoOverlap mtd_hack_rw.part) := by
  decide

/-- C1, amended: in `part[]` of `mtd-hack.c` every two descriptors at distinct
positions, neither of them `totality`, have disjoint byte ranges; in `part[]`
of `mtd-hack-rw.c` every two descriptors at distinct positions have disjoint
byte ranges unless one belongs to the 2.1 alternative and the other to the
2.2 alternative. -/
theorem part_disjoint_within_layout :
    (∀ i j : Fin mtd_hack.part.length, i ≠ j →
      (mtd_hack.part.get i).name ≠ "totality" → (mtd_hack.part.get j).name ≠ "totality" →
      RangesDisjoint (mtd_hack.part.get i) (mtd_hack.part.get j)) ∧
    (∀ i j : Fin mtd_hack_rw.part.length, i ≠ j →
      ¬ AlternativeLayouts (mtd_hack_rw.part.get i) (mtd_hack_rw.part.get j) →
      RangesDisjoint (mtd_hack_rw.part.get i) (mtd_hack_rw.part.get j)) := by
  decide

/-- The amended C1 at concrete positions: `mbmloader` and `mbm`, and `cdt_rw`
and `system_22`. -/
theorem part_disjoint_within_layout_witness :
    RangesDisjoint (mtd_hack.part.get ⟨0, by decide⟩) (mtd_hack.part.get ⟨1, by decide⟩) ∧
    RangesDisjoint (mtd_hack_rw.part.get ⟨0, by decide⟩) (mtd_hack_rw.part.get ⟨6, by decide⟩) :=
  ⟨part_disjoint_within_layout.1 ⟨0, by decide⟩ ⟨1, by decide⟩ (by decide) (by decide) (by decide),
   part_disjoint_within_layout.2 ⟨0, by decide⟩ ⟨6, by decide⟩ (by decide) (by decide)⟩

/-- C2: every descriptor of both arrays ends at or before 536870912 bytes, the
flash device size, which is both the size of `totality` and the total of the
documented layout. -/
theorem part_within_flash_device :
    flash_device_size = 536870912 ∧
    (∃ p ∈ mtd_hack.part, p.name = "totality" ∧ p.size = flash_device_size) ∧
    (∀ p ∈ mtd_hack.part, p.offset + p.size ≤ 536870912) ∧
    (∀ p ∈ mtd_hack_rw.part, p.offset + p.size ≤ 536870912) := by
  decide

/-- C2 at concrete descriptors: `rsv` and `userdata_22` end within the
device. -/
theorem part_within_flash_device_witness :
    (mtd_hack_part 512 523776 "rsv" MTD_RO).offset +
      (mtd_hack_part 512 523776 "rsv" MTD_RO).size ≤ 536870912 ∧
    (mtd_hack_part 265344 254464 "userdata_22" MTD_RW).offset +
      (mtd_hack_part 265344 254464 "userdata_22" MTD_RW).size ≤ 536870912 :=
  ⟨part_within_flash_device.2.2.1 _ (by decide), part_within_flash_device.2.2.2 _ (by decide)⟩

/-- C3: in both arrays every offset and every size is a multiple of the
erase-block size, 131072 bytes, which is also the size of `mbmloader`, the
smallest descriptor. -/
theorem part_erase_block_aligned :
    erase_block_size = 131072 ∧
    (∃ p ∈ mtd_hack.part, p.name = "mbmloader" ∧ p.size = erase_block_size ∧
      ∀ q ∈ mtd_hack.part ++ mtd_hack_rw.part, p.size ≤ q.size) ∧
    (∀ p ∈ mtd_hack.part,
      (∃ n, p.offset = n * erase_block_size) ∧ (∃ n, p.size = n * erase_block_size)) ∧
    (∀ p ∈ mtd_hack_rw.part,
      (∃ n, p.offset = n * erase_block_size) ∧ (∃ n, p.size = n * erase_block_size)) := by
  have he : erase_block_size = 131072 := by decide
  rw [he]
  refine ⟨rfl, by decide, ?_, ?_⟩
  · have h : ∀ p ∈ mtd_hack.part, p.offset % 131072 = 0 ∧ p.size % 131072 = 0 := by decide
    intro p hp
    obtain ⟨h1, h2⟩ := h p hp
    exact ⟨⟨p.offset / 131072, by omega⟩, ⟨p.size / 131072, by omega⟩⟩
  · have h : ∀ p ∈ mtd_hack_rw.part, p.offset % 131072 = 0 ∧ p.size % 131072 = 0 := by decide
    intro p hp
    obtain ⟨h1, h2⟩ := h p hp
    exact ⟨⟨p.offset / 131072, by omega⟩, ⟨p.size / 131072, by omega⟩⟩

/-- C3 at concrete descriptors: `bpsw` and `userdata_21`. -/
theorem part_erase_block_aligned_witness :
    ((∃ n, (mtd_hack_part 3840 11392 "bpsw" MTD_RO).offset = n * erase_block_size) ∧
      (∃ n, (mtd_hack_part 3840 11392 "bpsw" MTD_RO).size = n * erase_block_size)) ∧
    ((∃ n, (mtd_hack_part 177280 342528 "userdata_21" MTD_RW).offset = n * erase_block_size) ∧
      (∃ n, (mtd_hack_part 177280 342528 "userdata_21" MTD_RW).size = n * erase_block_size)) :=
  ⟨part_erase_block_aligned.2.2.1 _ (by decide), part_erase_block_aligned.2.2.2 _ (by decide)⟩

/-- C10: both tables agree with the documented `mtdparts=` line read as a
contiguous layout from offset 0. Every descriptor of `mtd-hack.c` but
`totality` has the documented size and the prefix sum of the 2.1 column as its
offset; `totality` starts at 0 and has the total of the documented sizes,
524288 KiB; every descriptor of `mtd-hack-rw.c`, its suffix removed, has the
documented size and prefix sum of its column; `userdata_21` and `userdata_22`
both end at 519808 KiB. -/
theorem part_tables_match_documented_layout :
    (∀ p ∈ mtd_hack.part, p.name ≠ "totality" →
      documented mtdparts_21 p.name = some (p.offset, p.size)) ∧
    (∃ p ∈ mtd_hack.part, p.name = "totality") ∧
    (∀ p ∈ mtd_hack.part, p.name = "totality" →
      p.offset = 0 ∧ p.size = layout_total mtdparts_21 ∧ p.size = kib 524288) ∧
    (∀ p ∈ mtd_hack_rw.part, ∃ base layout,
      rw_reference p.name = some (base, layout) ∧
      documented layout base = some (p.offset, p.size)) ∧
    (∀ p ∈ mtd_hack_rw.part, ∀ q ∈ mtd_hack_rw.part,
      p.name = "userdata_21" → q.name = "userdata_22" →
      p.offset + p.size = kib 519808 ∧ q.offset + q.size = kib 519808) := by
  refine ⟨by decide, by decide, by decide, ?_, by decide⟩
  have h : ∀ p ∈ mtd_hack_rw.part, rw_documented p.name = some (p.offset, p.size) := by decide
  intro p hp
  have hp2 := h p hp
  unfold rw_documented at hp2
  cases hr : rw_reference p.name with
  | none => rw [hr] at hp2; cases hp2
  | some bl =>
    obtain ⟨b, l⟩ := bl
    rw [hr] at hp2
    exact ⟨b, l, rfl, hp2⟩

/-- C10 at a concrete descriptor: `bpsw` of `mtd-hack.c`
is documented at 11392 KiB with 3840 KiB. -/
theorem part_tables_match_documented_layout_witness :
    documented mtdparts_21 "bpsw" = some (kib 11392, kib 3840) :=
  part_tables_match_documented_layout.1 (mtd_hack_part 3840 11392 "bpsw" MTD_RO)
    (by decide) (by decide)

/-! ## The device iteration -/

theorem registrations_append (a b : List Event) :
    registrations (a ++ b) = registrations a ++ registrations b := by
  induction a with
  | nil => rfl
  | cons e es ih =>
    cases e <;> simp [registrations, ih]

theorem registrations_printk (k : Kernel) (fmt : String) (args : List PrintkArg) :
    registrations (printk fmt args k).trace = registrations k.trace := by
  simp [printk, Kernel.emit, registrations_append, registrations]

theorem registrations_add (k : Kernel) (m : mtd_info) (ps : List mtd_partition) (n : Nat) :
    registrations (add_mtd_partitions m ps n k).trace = registrations k.trace ++ [(m, ps, n)] := by
  simp [add_mtd_partitions, Kernel.emit, registrations_append, registrations]

/-- The loop registers once per device up to the first device on which the
callback fails, for any callback that behaves as the two callbacks do. -/
theorem for_each_loop_registrations
    (fn : device → Option Nat → Kernel → Int × Kernel) (parts : List mtd_partition)
    (hnone : ∀ d data k, d.driver_data = none →
      (fn d data k).1 ≠ 0 ∧ registrations (fn d data k).2.trace = registrations k.trace)
    (hsome : ∀ d data k m, d.driver_data = some m →
      (fn d data k).1 = 0 ∧
      registrations (fn d data k).2.trace = registrations k.trace ++ [(m, parts, parts.length)])
    (data : Option Nat) (ds : List device) :
    ∀ k, registrations (for_each_loop fn data ds k).2.trace =
      registrations k.trace ++
        (handles_until_missing ds).map (fun m => (m, parts, parts.length)) := by
  induction ds with
  | nil => intro k; simp [for_each_loop, handles_until_missing]
  | cons d ds ih =>
    intro k
    cases hd : d.driver_data with
    | none =>
      obtain ⟨h1, h2⟩ := hnone d data k hd
      simp only [for_each_loop, handles_until_missing, hd]
      rw [if_pos h1]
      simpa using h2
    | some m =>
      obtain ⟨h1, h2⟩ := hsome d data k m hd
      simp only [for_each_loop, handles_until_missing, hd]
      rw [if_neg (by simpa using h1), ih, h2]
      simp

/-- The loop only appends to the trace when the callback only appends. -/
theorem for_each_loop_trace
    (fn : device → Option Nat → Kernel → Int × Kernel)
    (hfn : ∀ d data k, ∃ ext, (fn d data k).2.trace = k.trace ++ ext)
    (data : Option Nat) (ds : List device) :
    ∀ k, ∃ ext, (for_each_loop fn data ds k).2.trace = k.trace ++ ext := by
  induction ds with
  | nil => intro k; exact ⟨[], by simp [for_each_loop]⟩
  | cons d ds ih =>
    intro k
    obtain ⟨e1, he1⟩ := hfn d data k
    simp only [for_each_loop]
    by_cases h : (fn d data k).1 ≠ 0
    · rw [if_pos h]; exact ⟨e1, he1⟩
    · rw [if_neg h]
      obtain ⟨e2, he2⟩ := ih (fn d data k).2
      exact ⟨e1 ++ e2, by rw [he2, he1, List.append_assoc]⟩

/-! ## The callbacks and `mtd_init` -/

theorem hack_callback_without_handle (d : device) (data : Option Nat) (k : Kernel)
    (h : d.driver_data = none) :
    (mtd_hack.create_missing_flash_parts d data k).1 = -1 ∧
    registrations (mtd_hack.create_missing_flash_parts d data k).2.trace =
      registrations k.trace := by
  simp [mtd_hack.create_missing_flash_parts, h, registrations_printk]

theorem hack_callback_with_handle (d : device) (data : Option Nat) (k : Kernel)
    (m : mtd_info) (h : d.driver_data = some m) :
    (mtd_hack.create_missing_flash_parts d data k).1 = 0 ∧
    registrations (mtd_hack.create_missing_flash_parts d data k).2.trace =
      registrations k.trace ++ [(m, mtd_hack.part, mtd_hack.part.length)] := by
  simp [mtd_hack.create_missing_flash_parts, h, registrations_printk, registrations_add]

theorem rw_callback_without_handle (d : device) (data : Option Nat) (k : Kernel)
    (h : d.driver_data = none) :
    (mtd_hack_rw.create_missing_flash_parts d data k).1 = -1 ∧
    registrations (mtd_hack_rw.create_missing_flash_parts d data k).2.trace =
      registrations k.trace := by
  simp [mtd_hack_rw.create_missing_flash_parts, h, registrations_printk]

theorem rw_callback_with_handle (d : device) (data : Option Nat) (k : Kernel)
    (m : mtd_info) (h : d.driver_data = some m) :
    (mtd_hack_rw.create_missing_flash_parts d data k).1 = 0 ∧
    registrations (mtd_hack_rw.create_missing_flash_parts d data k).2.trace =
      registrations k.trace ++ [(m, mtd_hack_rw.part, mtd_hack_rw.part.length)] := by
  simp [mtd_hack_rw.create_missing_flash_parts, h, registrations_printk, registrations_add]

theorem hack_callback_trace (d : device) (data : Option Nat) (k : Kernel) :
    ∃ ext, (mtd_hack.create_missing_flash_parts d data k).2.trace = k.trace ++ ext := by
  cases h : d.driver_data with
  | none =>
    simp only [mtd_hack.create_missing_flash_parts, h, printk, Kernel.emit]
    exact ⟨_, rfl⟩
  | some m =>
    simp only [mtd_hack.create_missing_flash_parts, h, printk, add_mtd_partitions, Kernel.emit,
      List.append_assoc]
    exact ⟨_, rfl⟩

/-- Setting the writable flag leaves the platform bus alone. -/
theorem mark_boot_writeable_bus (k : Kernel) :
    (mtd_hack.mark_boot_writeable k).2.platform_bus = k.platform_bus := by
  unfold mtd_hack.mark_boot_writeable
  cases get_mtd_device_nm k "boot" with
  | none => rfl
  | some im => rfl

/-- Setting the writable flag registers nothing. -/
theorem mark_boot_writeable_registrations (k : Kernel) :
    registrations (mtd_hack.mark_boot_writeable k).2.trace = registrations k.trace := by
  unfold mtd_hack.mark_boot_writeable
  cases get_mtd_device_nm k "boot" with
  | none => rfl
  | some im =>
    simp [printk, Kernel.emit, registrations_append, registrations]

/-- Neither `mtd_init` ever returns a code other than 0. -/
theorem mtd_init_returns_only_zero (k k1 : Kernel) (c : Int) :
    (mtd_hack.mtd_init k = Outcome.returned c k1 → c = 0) ∧
    (mtd_hack_rw.mtd_init k = Outcome.returned c k1 → c = 0) := by
  constructor
  · intro h
    unfold mtd_hack.mtd_init at h
    cases hd : driver_find (mtd_hack.mark_boot_writeable k).2 "omap2-nand" with
    | none => simp [hd] at h
    | some d => simp [hd] at h; exact h.1.symm
  · intro h
    unfold mtd_hack_rw.mtd_init at h
    cases hd : driver_find k "omap2-nand" with
    | none => simp [hd] at h
    | some d => simp [hd] at h; exact h.1.symm

theorem driver_find_after_mark_boot (k : Kernel) (nm : String) :
    driver_find (mtd_hack.mark_boot_writeable k).2 nm = driver_find k nm := by
  unfold driver_find
  rw [mark_boot_writeable_bus]

/-- C7, as stated, fails: with a device without a flash handle in front of a
device that has one, `driver_find` yields the driver and both `mtd_init`
return 0, yet neither registers anything, although one device has a flash
handle. -/
theorem registers_on_every_flash_device_counterexample :
    (∃ drv, driver_find kernel_with_gap "omap2-nand" = some drv ∧
      flash_handles drv.devices ≠ [] ∧
      ¬ RegistersOnEveryFlashDevice mtd_hack.mtd_init mtd_hack.part kernel_with_gap drv.devices ∧
      ¬ RegistersOnEveryFlashDevice mtd_hack_rw.mtd_init mtd_hack_rw.part kernel_with_gap
          drv.devices) ∧
    registrations (mtd_hack.mtd_init kernel_with_gap).state.trace = [] ∧
    registrations (mtd_hack_rw.mtd_init kernel_with_gap).state.trace = [] := by
  refine ⟨⟨_, rfl, by decide, ?_, ?_⟩, by decide, by decide⟩
  · rintro ⟨-, h⟩
    revert h
    decide
  · rintro ⟨-, h⟩
    revert h
    decide

/-- C7, amended: when `driver_find` yields the driver, each `mtd_init` returns
0 and registers the full static array (14 descriptors in `mtd-hack.c`, 9 in
`mtd-hack-rw.c`) once, in order, on every device that comes before the first
device without a flash handle, and on no other device; on a device without a
flash handle the callback returns -1 and registers nothing. -/
theorem mtd_init_registers_until_first_missing_handle (k : Kernel) (devdrv : device_driver)
    (h : driver_find k "omap2-nand" = some devdrv) :
    ((∃ k1, mtd_hack.mtd_init k = Outcome.returned 0 k1) ∧
      registrations (mtd_hack.mtd_init k).state.trace =
        registrations k.trace ++
          (handles_until_missing devdrv.devices).map (fun m => (m, mtd_hack.part, 14))) ∧
    ((∃ k1, mtd_hack_rw.mtd_init k = Outcome.returned 0 k1) ∧
      registrations (mtd_hack_rw.mtd_init k).state.trace =
        registrations k.trace ++
          (handles_until_missing devdrv.devices).map (fun m => (m, mtd_hack_rw.part, 9))) ∧
    (∀ d data k0, d.driver_data = none →
      (mtd_hack.create_missing_flash_parts d data k0).1 = -1 ∧
      registrations (mtd_hack.create_missing_flash_parts d data k0).2.trace =
        registrations k0.trace ∧
      (mtd_hack_rw.create_missing_flash_parts d data k0).1 = -1 ∧
      registrations (mtd_hack_rw.create_missing_flash_parts d data k0).2.trace =
        registrations k0.trace) := by
  have h0 : driver_find (mtd_hack.mark_boot_writeable k).2 "omap2-nand" = some devdrv := by
    rw [driver_find_after_mark_boot]; exact h
  have l1 := for_each_loop_registrations mtd_hack.create_missing_flash_parts mtd_hack.part
    (fun d data k0 hd => by
      have := hack_callback_without_handle d data k0 hd
      exact ⟨by rw [this.1]; decide, this.2⟩)
    (fun d data k0 m hd => hack_callback_with_handle d data k0 m hd) none devdrv.devices
  have l2 := for_each_loop_registrations mtd_hack_rw.create_missing_flash_parts mtd_hack_rw.part
    (fun d data k0 hd => by
      have := rw_callback_without_handle d data k0 hd
      exact ⟨by rw [this.1]; decide, this.2⟩)
    (fun d data k0 m hd => rw_callback_with_handle d data k0 m hd) none devdrv.devices
  have n1 : mtd_hack.part.length = 14 := rfl
  have n2 : mtd_hack_rw.part.length = 9 := rfl
  rw [n1] at l1
  rw [n2] at l2
  refine ⟨⟨?_, ?_⟩, ⟨?_, ?_⟩, ?_⟩
  · unfold mtd_hack.mtd_init
    simp only [h0]
    exact ⟨_, rfl⟩
  · unfold mtd_hack.mtd_init
    simp only [h0, Outcome.state, driver_for_each_device]
    rw [registrations_printk, l1, registrations_printk,
      mark_boot_writeable_registrations]
  · unfold mtd_hack_rw.mtd_init
    simp only [h]
    exact ⟨_, rfl⟩
  · unfold mtd_hack_rw.mtd_init
    simp only [h, Outcome.state, driver_for_each_device]
    rw [registrations_printk, l2, registrations_printk]
  · intro d data k0 hd
    obtain ⟨a, b⟩ := hack_callback_without_handle d data k0 hd
    obtain ⟨c, e⟩ := rw_callback_without_handle d data k0 hd
    exact ⟨a, b, c, e⟩

/-- The amended C7 on three devices, the middle one without a flash handle:
only the first device gets the registration, in both modules. -/
theorem mtd_init_registers_until_first_missing_handle_witness :
    registrations (mtd_hack.mtd_init kernel_three_devices).state.trace =
      [({ name := "nand0", type := 4, flags := 1024, size := 536870912 }, mtd_hack.part, 14)] ∧
    registrations (mtd_hack_rw.mtd_init kernel_three_devices).state.trace =
      [({ name := "nand0", type := 4, flags := 1024, size := 536870912 }, mtd_hack_rw.part, 9)] :=
  ⟨(mtd_init_registers_until_first_missing_handle kernel_three_devices _ rfl).1.2,
   (mtd_init_registers_until_first_missing_handle kernel_three_devices _ rfl).2.1.2⟩

/-- Whenever `driver_find` yields NULL, both `mtd_init` end in an oops. -/
theorem mtd_init_oops_of_no_driver (k : Kernel) (h : driver_find k "omap2-nand" = none) :
    mtd_hack.mtd_init k = Outcome.oops (mtd_hack.mark_boot_writeable k).2 ∧
    mtd_hack_rw.mtd_init k = Outcome.oops k := by
  constructor
  · unfold mtd_hack.mtd_init
    simp only [driver_find_after_mark_boot, h]
  · unfold mtd_hack_rw.mtd_init
    simp only [h]

/-- C8 at the failing input: with no `omap2-nand` driver registered, both
`mtd_init` read `devdrv->name` through the NULL result of `driver_find` and end
in an oops; neither returns an error code. No partition is registered. -/
theorem mtd_init_oops_without_driver :
    driver_find kernel_without_driver "omap2-nand" = none ∧
    mtd_hack.mtd_init kernel_without_driver = Outcome.oops kernel_without_driver ∧
    mtd_hack_rw.mtd_init kernel_without_driver = Outcome.oops kernel_without_driver ∧
    registrations (mtd_hack.mtd_init kernel_without_driver).state.trace = [] ∧
    registrations (mtd_hack_rw.mtd_init kernel_without_driver).state.trace = [] := by
  decide

/-! ## The writable flag of `boot` -/

theorem mtd_table_scan_spec (nm : String) (l : List mtd_info) :
    ∀ (s i : Nat) (m : mtd_info), mtd_table_scan nm s l = some (i, m) →
      s ≤ i ∧ l[i - s]? = some m ∧ m.name = nm := by
  induction l with
  | nil => intro s i m h; simp [mtd_table_scan] at h
  | cons x xs ih =>
    intro s i m h
    unfold mtd_table_scan at h
    by_cases hx : x.name = nm
    · rw [if_pos hx] at h
      simp only [Option.some.injEq, Prod.mk.injEq] at h
      obtain ⟨h1, h2⟩ := h
      subst h1 h2
      simp [hx]
    · rw [if_neg hx] at h
      obtain ⟨h1, h2, h3⟩ := ih (s + 1) i m h
      refine ⟨by omega, ?_, h3⟩
      have : i - s = (i - (s + 1)) + 1 := by omega
      rw [this]
      simpa using h2

theorem get_mtd_device_nm_spec (k : Kernel) (nm : String) (i : Nat) (m : mtd_info)
    (h : get_mtd_device_nm k nm = some (i, m)) :
    k.mtd_table[i]? = some m ∧ m.name = nm := by
  obtain ⟨-, h2, h3⟩ := mtd_table_scan_spec nm k.mtd_table 0 i m h
  exact ⟨by simpa using h2, h3⟩

theorem or_writeable_testBit (f b : Nat) :
    (f ||| MTD_WRITEABLE).testBit b = (f.testBit b || decide (b = 10)) := by
  have h : MTD_WRITEABLE = 2 ^ 10 := by decide
  rw [Nat.testBit_or, h, Nat.testBit_two_pow]
  congr 1
  by_cases hb : b = 10 <;> simp [hb, eq_comm]

/-- C9: when the `boot` device is found (at table index `i`, with flags `f`),
`mark_boot_writeable` returns 0 and leaves that device with flags
`f | MTD_WRITEABLE` (bit 10 set, every other bit as in `f`) and every other
table entry as it was; `mtd_init` stores the new flags before any partition
registration it makes; when `boot` is not found `mark_boot_writeable` returns
-1 and changes nothing. -/
theorem mark_boot_writeable_sets_writable_bit (k : Kernel) :
    (∀ i mtd, get_mtd_device_nm k "boot" = some (i, mtd) →
      k.mtd_table[i]? = some mtd ∧ mtd.name = "boot" ∧
      (mtd_hack.mark_boot_writeable k).1 = 0 ∧
      (mtd_hack.mark_boot_writeable k).2.mtd_table[i]? =
        some { mtd with flags := mtd.flags ||| MTD_WRITEABLE } ∧
      (∀ j, j ≠ i → (mtd_hack.mark_boot_writeable k).2.mtd_table[j]? = k.mtd_table[j]?) ∧
      MTD_WRITEABLE = 2 ^ 10 ∧
      (mtd.flags ||| MTD_WRITEABLE).testBit 10 = true ∧
      (∀ b, b ≠ 10 → (mtd.flags ||| MTD_WRITEABLE).testBit b = mtd.flags.testBit b) ∧
      ∃ pre post,
        (mtd_hack.mtd_init k).state.trace =
          k.trace ++ pre ++ Event.store_flags i (mtd.flags ||| MTD_WRITEABLE) :: post ∧
        registrations pre = []) ∧
    (get_mtd_device_nm k "boot" = none → mtd_hack.mark_boot_writeable k = (-1, k)) := by
  constructor
  · intro i mtd h
    obtain ⟨h1, h2⟩ := get_mtd_device_nm_spec k "boot" i mtd h
    have hlt : i < k.mtd_table.length := by
      rcases Nat.lt_or_ge i k.mtd_table.length with hl | hl
      · exact hl
      · rw [List.getElem?_eq_none hl] at h1; cases h1
    refine ⟨h1, h2, ?_, ?_, ?_, by decide, ?_, ?_, ?_⟩
    · simp [mtd_hack.mark_boot_writeable, h]
    · simp [mtd_hack.mark_boot_writeable, h, printk, Kernel.emit, List.getElem?_set, hlt]
    · intro j hj
      simp [mtd_hack.mark_boot_writeable, h, printk, Kernel.emit, List.getElem?_set, Ne.symm hj]
    · rw [or_writeable_testBit]; simp
    · intro b hb
      rw [or_writeable_testBit]; simp [hb]
    · have hmark : (mtd_hack.mark_boot_writeable k).2.trace =
          k.trace ++ [Event.printk "mtd-hack: original 'boot' partition flags: %d\n"
              [PrintkArg.num mtd.flags]] ++
            Event.store_flags i (mtd.flags ||| MTD_WRITEABLE) ::
              [Event.printk "mtd-hack: modified 'boot' partition flags: %d\n"
                [PrintkArg.num ((mtd.flags ||| MTD_WRITEABLE : Nat) : Int)]] := by
        simp [mtd_hack.mark_boot_writeable, h, printk, Kernel.emit]
      have hext : ∃ ext, (mtd_hack.mtd_init k).state.trace =
          (mtd_hack.mark_boot_writeable k).2.trace ++ ext := by
        unfold mtd_hack.mtd_init
        cases hd : driver_find (mtd_hack.mark_boot_writeable k).2 "omap2-nand" with
        | none => exact ⟨[], by simp [Outcome.state, hd]⟩
        | some d =>
          obtain ⟨e, he⟩ := for_each_loop_trace mtd_hack.create_missing_flash_parts
            hack_callback_trace none d.devices
            (printk "mtd-hack: found driver %s modname %s\n"
              [PrintkArg.str d.name, PrintkArg.str d.mod_name] (mtd_hack.mark_boot_writeable k).2)
          simp only [hd, Outcome.state, driver_for_each_device]
          simp only [printk, Kernel.emit] at he ⊢
          rw [he]
          simp only [List.append_assoc]
          exact ⟨_, rfl⟩
      obtain ⟨ext, hext⟩ := hext
      refine ⟨[Event.printk "mtd-hack: original 'boot' partition flags: %d\n"
        [PrintkArg.num mtd.flags]],
        [Event.printk "mtd-hack: modified 'boot' partition flags: %d\n"
          [PrintkArg.num ((mtd.flags ||| MTD_WRITEABLE : Nat) : Int)]] ++ ext, ?_, rfl⟩
      rw [hext, hmark]
      simp
  · intro h
    simp [mtd_hack.mark_boot_writeable, h]

/-- C9 on a concrete kernel: `boot` is found at index 1 with flags 2048 and
ends with flags 3072. -/
theorem mark_boot_writeable_sets_writable_bit_witness :
    get_mtd_device_nm kernel_with_boot "boot" =
      some (1, { name := "boot", type := 4, flags := 2048, size := 3670016 }) ∧
    (mtd_hack.mark_boot_writeable kernel_with_boot).2.mtd_table[1]? =
      some { name := "boot", type := 4, flags := 3072, size := 3670016 } ∧
    (get_mtd_device_nm kernel_without_driver "boot" = none ∧
      mtd_hack.mark_boot_writeable kernel_without_driver = (-1, kernel_without_driver)) :=
  ⟨by decide,
   ((mark_boot_writeable_sets_writable_bit kernel_with_boot).1 1
      { name := "boot", type := 4, flags := 2048, size := 3670016 } (by decide)).2.2.2.1,
   by decide,
   (mark_boot_writeable_sets_writable_bit kernel_without_driver).2 (by decide)⟩

/-! ## The sensor fix -/

/-- With the device open and both pointers present, `sensorfix_init` returns 0,
leaves the six constants in the record and closes the handle it opened. -/
theorem sensorfix_init_success (k : SensorKernel) (tf9 : kxtf9_data) (c : kxtf9_platform_data)
    (h1 : k.dev_kxtf9 = filp_result.file) (h2 : k.private_data = some tf9)
    (h3 : tf9.pdata = some c) :
    ∃ k1, sensorfix_init k = Outcome.returned 0 k1 ∧
      k1.dev_kxtf9 = filp_result.file ∧
      k1.private_data = some { tf9 with pdata := some fixed_config } ∧
      k1.open_files = k.open_files := by
  unfold sensorfix_init
  simp only [h1, h2, h3]
  exact ⟨_, rfl, rfl, rfl, by simp [filp_close, SensorKernel.printk]⟩

/-- A return code of 0 comes only from the path that stores the constants. -/
theorem sensorfix_init_zero (k k1 : SensorKernel) (h : sensorfix_init k = Outcome.returned 0 k1) :
    k1.config = some fixed_config := by
  unfold sensorfix_init at h
  cases hd : k.dev_kxtf9 with
  | null => simp [hd, EBUSY] at h
  | err_ptr e => simp [hd] at h
  | file =>
    cases hp : k.private_data with
    | none => simp [hd, hp, EBUSY] at h
    | some tf9 =>
      cases hc : tf9.pdata with
      | none => simp [hd, hp, hc] at h
      | some c =>
        simp only [hd, hp, hc, Outcome.returned.injEq, true_and] at h
        subst h
        rfl

/-- C4: for every initial configuration record, a permutation or not, when the
device opens and both pointers are present `sensorfix_init` does return 0, and
whenever it returns 0 the axis maps of the record are (0, 1, 2): pairwise
distinct, each in {0, 1, 2}. -/
theorem sensorfix_axis_map_is_permutation (k : SensorKernel) :
    (∀ tf9 c, k.dev_kxtf9 = filp_result.file → k.private_data = some tf9 → tf9.pdata = some c →
      ∃ k1, sensorfix_init k = Outcome.returned 0 k1) ∧
    (∀ k1, sensorfix_init k = Outcome.returned 0 k1 →
      ∃ p, k1.config = some p ∧
        p.axis_map_x = 0 ∧ p.axis_map_y = 1 ∧ p.axis_map_z = 2 ∧ IsAxisPermutation p) := by
  constructor
  · intro tf9 c h1 h2 h3
    obtain ⟨k1, hk, -⟩ := sensorfix_init_success k tf9 c h1 h2 h3
    exact ⟨k1, hk⟩
  · intro k1 h
    exact ⟨fixed_config, sensorfix_init_zero k k1 h, rfl, rfl, rfl, by decide⟩

/-- C4 from a record whose axis maps (1, 1, 7) are not a permutation: the
routine returns 0 and the result is one. -/
theorem sensorfix_axis_map_is_permutation_witness :
    (∃ k1, sensorfix_init sensor_not_permutation = Outcome.returned 0 k1) ∧
    (∃ p, (sensorfix_init sensor_not_permutation).state.config = some p ∧
      p.axis_map_x = 0 ∧ p.axis_map_y = 1 ∧ p.axis_map_z = 2 ∧ IsAxisPermutation p) :=
  ⟨(sensorfix_axis_map_is_permutation sensor_not_permutation).1 _ _ rfl rfl rfl,
   (sensorfix_axis_map_is_permutation sensor_not_permutation).2 _ rfl⟩

/-- C5: when the device opens and both pointers are present, a first run of
`sensorfix_init` returns a code and a state from which a second run returns
the same code and leaves the same record (all six fields); both runs return
0. -/
theorem sensorfix_idempotent (k : SensorKernel) (tf9 : kxtf9_data) (c : kxtf9_platform_data)
    (h1 : k.dev_kxtf9 = filp_result.file) (h2 : k.private_data = some tf9)
    (h3 : tf9.pdata = some c) :
    ∃ r k1 k2 p,
      sensorfix_init k = Outcome.returned r k1 ∧
      sensorfix_init k1 = Outcome.returned r k2 ∧
      k1.config = some p ∧ k2.config = some p ∧ r = 0 := by
  obtain ⟨k1, hk1, hf1, hp1, -⟩ := sensorfix_init_success k tf9 c h1 h2 h3
  obtain ⟨k2, hk2, -, -, -⟩ :=
    sensorfix_init_success k1 { tf9 with pdata := some fixed_config } fixed_config hf1 hp1 rfl
  exact ⟨0, k1, k2, fixed_config, hk1, hk2, sensorfix_init_zero k k1 hk1,
    sensorfix_init_zero k1 k2 hk2, rfl⟩

/-- C5 from the Motoroi record: the second run changes none of the six
fields. -/
theorem sensorfix_idempotent_witness :
    ∃ r k1 k2 p,
      sensorfix_init sensor_motoroi = Outcome.returned r k1 ∧
      sensorfix_init k1 = Outcome.returned r k2 ∧
      k1.config = some p ∧ k2.config = some p ∧ r = 0 :=
  sensorfix_idempotent sensor_motoroi _ _ rfl rfl rfl

/-- With the device open and `private_data` NULL, `sensorfix_init` returns
`-EBUSY`, writes no record and closes the handle it opened. -/
theorem sensorfix_init_without_private_data (k : SensorKernel)
    (h1 : k.dev_kxtf9 = filp_result.file) (h2 : k.private_data = none) :
    ∃ k1, sensorfix_init k = Outcome.returned (-16) k1 ∧
      k1.private_data = none ∧ k1.open_files = k.open_files := by
  unfold sensorfix_init
  simp only [h1, h2]
  exact ⟨_, rfl, rfl, by simp [filp_close, SensorKernel.printk]⟩

/-- C6 at the failing input: the device opens, `private_data` is present and
its `pdata` is NULL. The routine reads through the NULL `pdata` at its first
store and ends in an oops: it returns no code, and the handle it opened is
still open. -/
theorem sensorfix_init_oops_without_pdata :
    sensorfix_init sensor_without_pdata =
      Outcome.oops { sensor_without_pdata with open_files := 1 } ∧
    (∀ k1, sensorfix_init sensor_without_pdata ≠ Outcome.returned (-EBUSY) k1) ∧
    (sensorfix_init sensor_without_pdata).state.open_files =
      sensor_without_pdata.open_files + 1 := by
  refine ⟨by decide, ?_, by decide⟩
  intro k1 h
  have h0 : sensorfix_init sensor_without_pdata =
      Outcome.oops { sensor_without_pdata with open_files := 1 } := by decide
  rw [h0] at h
  cases h

